import Mathlib

/-!
# Verification of the data-pipeline monitoring core

Shallow embedding of the status-normalization and health-assessment pipeline:
the platform status mappers (`src/models/platform_models.py`), the job-record
normalizers (`src/tools/*_api.py`), the platform health aggregator
(`src/agents/airbyte_agent.py`), the overall health assessor and notification
gate (`src/agents/orchestrator_agent.py`), and the rate properties of
`PlatformHealthSummary` (`src/models/job_status.py`).

Conventions of the embedding:
* Python strings are Lean `String`s; `str.lower()` is `pyLower` (ASCII
  case-folding, executable by the kernel; every status vocabulary in the
  source is ASCII).
* Machine timestamps are integers (epoch seconds or milliseconds, as in the
  source); `datetime.fromisoformat` applied to a raw timestamp string is
  modelled by the inductive `IsoTime`, which records only whether the library
  parse succeeds (producing an epoch value) or raises `ValueError` — the
  repository's own logic branches only on that outcome.
* Percentages and rates are exact rationals (`ℚ`); Python floats are modelled
  as exact arithmetic.
* Fallible code (pydantic validation, a `try` block whose exception is
  re-raised as a platform API error) returns `Except String`.
* `dict.get(key, default)` over a known payload shape becomes a structure
  field (`Option` when the key can be absent or the value `None`).
-/

/-- ASCII lower-casing of one character (`str.lower()` on the alphabets the
source uses). -/
def pyCharLower (c : Char) : Char :=
  if 65 ≤ c.toNat ∧ c.toNat ≤ 90 then Char.ofNat (c.toNat + 32) else c

/-- ASCII upper-casing of one character. -/
def pyCharUpper (c : Char) : Char :=
  if 97 ≤ c.toNat ∧ c.toNat ≤ 122 then Char.ofNat (c.toNat - 32) else c

/-- Python `str.lower()` (ASCII). -/
def pyLower (s : String) : String := ⟨s.data.map pyCharLower⟩

/-- The canonical status vocabulary: the string values of the `JobStatus`
enum in `src/models/job_status.py`. -/
def canonicalStatuses : List String :=
  ["running", "success", "failed", "cancelled", "pending", "unknown"]

/-- `map_airbyte_status` from `src/models/platform_models.py`: dictionary
lookup on the lower-cased raw status, defaulting to `"unknown"`. -/
def mapAirbyteStatus (airbyte_status : String) : String :=
  let s := pyLower airbyte_status
  if s = "succeeded" then "success"
  else if s = "failed" then "failed"
  else if s = "cancelled" then "cancelled"
  else if s = "running" then "running"
  else if s = "pending" then "pending"
  else if s = "incomplete" then "running"
  else "unknown"

/-- The Databricks run `state` dict: `life_cycle_state`, `result_state` and
`state_message` are read with `.get(..., "")`-style defaults, so an absent
key is the empty string. -/
structure DatabricksState where
  life_cycle_state : String
  result_state : String
  state_message : String
deriving Repr, DecidableEq

/-- `map_databricks_status` from `src/models/platform_models.py`: resolve on
the lower-cased `life_cycle_state` first; only a `terminated` lifecycle lets
the lower-cased `result_state` decide; everything else is `"running"` (for
`pending`/`running`) or `"unknown"`. -/
def mapDatabricksStatus (databricks_state : DatabricksState) : String :=
  let life_cycle_state := pyLower databricks_state.life_cycle_state
  let result_state := pyLower databricks_state.result_state
  if life_cycle_state = "terminated" then
    if result_state = "success" then "success"
    else if result_state = "failed" then "failed"
    else if result_state = "canceled" then "cancelled"
    else "unknown"
  else if life_cycle_state = "pending" ∨ life_cycle_state = "running" then "running"
  else "unknown"

/-- `map_powerautomate_status` from `src/models/platform_models.py`. -/
def mapPowerautomateStatus (pa_status : String) : String :=
  let s := pyLower pa_status
  if s = "succeeded" then "success"
  else if s = "failed" then "failed"
  else if s = "cancelled" then "cancelled"
  else if s = "running" then "running"
  else if s = "waiting" then "pending"
  else if s = "suspended" then "pending"
  else "unknown"

/-- `map_snowflake_task_status` from `src/models/platform_models.py`. -/
def mapSnowflakeTaskStatus (snowflake_state : String) : String :=
  let s := pyLower snowflake_state
  if s = "succeeded" then "success"
  else if s = "failed" then "failed"
  else if s = "cancelled" then "cancelled"
  else if s = "running" then "running"
  else if s = "scheduled" then "pending"
  else if s = "skipped" then "cancelled"
  else "unknown"

/-- A raw timestamp string as seen by `datetime.fromisoformat`: it either
parses to an epoch value or raises `ValueError`.  The repository only ever
branches on that outcome, so the embedding abstracts the parse itself. -/
inductive IsoTime where
  | valid (epoch : Int)
  | invalid
deriving Repr, DecidableEq

/-- The epoch value of a parseable timestamp, `none` on parse failure
(the branch where the source logs a warning and leaves the field null). -/
def IsoTime.parse : IsoTime → Option Int
  | .valid t => some t
  | .invalid => none

/-- The canonical `JobStatusRecord` of `src/models/job_status.py`
(the open `metadata` mapping, which the repository only stores and never
reads, is not modelled; `checked_at` is the normalization-time clock value
passed in by the caller). -/
structure JobStatusRecord where
  job_id : String
  platform : String
  job_name : String
  status : String
  last_run_time : Option Int
  duration_seconds : Option Int
  error_message : Option String
  checked_at : Int
deriving Repr, DecidableEq

/-- Pydantic construction of a `JobStatusRecord`: the `status` value must be
a member of the `JobStatus` enum and `duration_seconds` carries `ge=0`, so
construction raises a `ValidationError` (modelled as `.error`) when the
duration is negative. -/
def mkJobStatusRecord (r : JobStatusRecord) : Except String JobStatusRecord :=
  if ¬ canonicalStatuses.contains r.status then
    .error "ValidationError: status is not a valid JobStatus"
  else
    match r.duration_seconds with
    | some d =>
        if d < 0 then .error "ValidationError: duration_seconds must be >= 0"
        else .ok r
    | none => .ok r

/-! ## Airbyte normalizer (`get_airbyte_job_status` in `src/tools/airbyte_api.py`) -/

/-- One entry of the Airbyte jobs-list response (`AirbyteJobResponse`).
Timestamp fields are `Option IsoTime`: `none` models both an absent
(`None`) and an empty-string value, since the source guards on Python
truthiness. -/
structure AirbyteJob where
  job_id : String
  config_id : String
  config_name : Option String
  job_type : String
  status : String
  started_at : Option IsoTime
  ended_at : Option IsoTime
deriving Repr, DecidableEq

/-- The per-item body of the conversion loop in `get_airbyte_job_status`:
parse `started_at` (a `ValueError` is caught and leaves the field null),
derive the duration from both timestamps when both parse, fall back to
`"Job {job_id}"` when `config_name` is falsy, and construct the pydantic
record.  There is no per-item exception handler around the record
construction itself. -/
def airbyteRecord (now : Int) (job : AirbyteJob) : Except String JobStatusRecord :=
  let last_run_time : Option Int :=
    match job.started_at with
    | some t => t.parse
    | none => none
  let duration_seconds : Option Int :=
    match job.started_at, job.ended_at with
    | some s, some e =>
        match s.parse, e.parse with
        | some ts, some te => some (te - ts)
        | _, _ => none
    | _, _ => none
  let job_name : String :=
    match job.config_name with
    | some n => if n = "" then "Job " ++ job.job_id else n
    | none => "Job " ++ job.job_id
  mkJobStatusRecord
    { job_id := job.job_id
      platform := "airbyte"
      job_name := job_name
      status := mapAirbyteStatus job.status
      last_run_time := last_run_time
      duration_seconds := duration_seconds
      error_message := none
      checked_at := now }

/-- The conversion loop of `get_airbyte_job_status`: records accumulate in
order; the first exception escapes the loop (there is no per-item
`try`/`except`). -/
def airbyteRecordsLoop (now : Int) : List AirbyteJob → Except String (List JobStatusRecord)
  | [] => .ok []
  | job :: rest =>
      match airbyteRecord now job with
      | .error e => .error e
      | .ok r =>
          match airbyteRecordsLoop now rest with
          | .error e => .error e
          | .ok rs => .ok (r :: rs)

/-- `get_airbyte_job_status` (batch part): any exception escaping the
conversion loop is re-raised as `AirbyteAPIError("Failed to get job status:
...")`, aborting the whole batch. -/
def getAirbyteJobStatus (now : Int) (jobs : List AirbyteJob) :
    Except String (List JobStatusRecord) :=
  match airbyteRecordsLoop now jobs with
  | .ok rs => .ok rs
  | .error e => .error ("Failed to get job status: " ++ e)

/-! ## Databricks normalizer (`get_databricks_job_status` in
`src/tools/databricks_api.py`) -/

/-- A Databricks job run (`DatabricksJobRun`): epoch-millisecond timestamps
and durations, plus the `state` dict. -/
structure DatabricksRun where
  run_id : Int
  job_id : Int
  state : DatabricksState
  start_time : Option Int
  end_time : Option Int
  execution_duration : Option Int
deriving Repr, DecidableEq

/-- The per-run body of `get_databricks_job_status`.  `job_name` is resolved
by a cached network lookup in the source and is passed in here.  Python
truthiness guards (`if run.start_time:` etc.) make a present-but-zero value
behave like an absent one.  The error message is extracted only when the raw
`result_state` equals the exact uppercase string `"FAILED"` and
`state_message` is nonempty, while the status mapper lower-cases the same
field. -/
def databricksRecord (now : Int) (job_name : String) (run : DatabricksRun) :
    Except String JobStatusRecord :=
  let last_run_time : Option Int :=
    match run.start_time with
    | some t => if t = 0 then none else some t
    | none => none
  let duration_seconds : Option Int :=
    match run.execution_duration with
    | some d =>
        if d = 0 then
          match run.start_time, run.end_time with
          | some s, some e =>
              if s = 0 ∨ e = 0 then none else some ((e - s).fdiv 1000)
          | _, _ => none
        else some (d.fdiv 1000)
    | none =>
        match run.start_time, run.end_time with
        | some s, some e =>
            if s = 0 ∨ e = 0 then none else some ((e - s).fdiv 1000)
        | _, _ => none
  let error_message : Option String :=
    if run.state.result_state = "FAILED" then
      if run.state.state_message = "" then none else some run.state.state_message
    else none
  mkJobStatusRecord
    { job_id := "databricks_" ++ toString run.job_id ++ "_" ++ toString run.run_id
      platform := "databricks"
      job_name := job_name
      status := mapDatabricksStatus run.state
      last_run_time := last_run_time
      duration_seconds := duration_seconds
      error_message := error_message
      checked_at := now }

/-! ## Power Automate normalizer (`get_powerautomate_job_status` in
`src/tools/powerautomate_api.py`) -/

/-- A Power Automate flow (identity and display name, extracted from the
`properties` payload by the pydantic model). -/
structure PAFlow where
  id : String
  display_name : String
  state : String
deriving Repr, DecidableEq

/-- A Power Automate flow run (run id and status extracted from the
response payload). -/
structure PARun where
  run_id : String
  status : String
  start_time : Option IsoTime
  end_time : Option IsoTime
deriving Repr, DecidableEq

/-- The per-run body of `get_powerautomate_job_status`: the record's id is
composed from the flow id and the run id; no `error_message` argument is
passed, so the pydantic default `None` applies. -/
def powerautomateRecord (now : Int) (flow : PAFlow) (run : PARun) :
    Except String JobStatusRecord :=
  let last_run_time : Option Int :=
    match run.start_time with
    | some t => t.parse
    | none => none
  let duration_seconds : Option Int :=
    match run.start_time, run.end_time with
    | some s, some e =>
        match s.parse, e.parse with
        | some ts, some te => some (te - ts)
        | _, _ => none
    | _, _ => none
  mkJobStatusRecord
    { job_id := "powerautomate_" ++ flow.id ++ "_" ++ run.run_id
      platform := "power_automate"
      job_name := flow.display_name
      status := mapPowerautomateStatus run.status
      last_run_time := last_run_time
      duration_seconds := duration_seconds
      error_message := none
      checked_at := now }

/-! ## Snowflake task normalizer (`get_snowflake_task_status` in
`src/tools/snowflake_task_api.py`) -/

/-- A Snowflake task-history row (`SnowflakeTaskHistory`).  The connector
returns `started_time`/`completed_time` as datetimes, modelled as epoch
integers (the string branch of the source handles a re-serialized payload
and is not exercised by the claims). -/
structure SnowflakeTask where
  name : String
  database_name : String
  schema_name : String
  state : String
  started_time : Option Int
  completed_time : Option Int
  run_id : Option Int
  error_code : Option String
  error_message : Option String
deriving Repr, DecidableEq

/-- The per-row body of `get_snowflake_task_status`.  The id suffix is
`task.run_id or 'unknown'` — Python truthiness, so a zero run id also falls
back to `"unknown"`.  The raw `ERROR_MESSAGE` is copied into the record
unconditionally, whatever the canonical status. -/
def snowflakeTaskRecord (now : Int) (task : SnowflakeTask) :
    Except String JobStatusRecord :=
  let runIdPart : String :=
    match task.run_id with
    | some r => if r = 0 then "unknown" else toString r
    | none => "unknown"
  let duration_seconds : Option Int :=
    match task.started_time, task.completed_time with
    | some s, some e => some (e - s)
    | _, _ => none
  mkJobStatusRecord
    { job_id := "snowflake_task_" ++ task.name ++ "_" ++ runIdPart
      platform := "snowflake_task"
      job_name := task.database_name ++ "." ++ task.schema_name ++ "." ++ task.name
      status := mapSnowflakeTaskStatus task.state
      last_run_time := task.started_time
      duration_seconds := duration_seconds
      error_message := task.error_message
      checked_at := now }

/-! ## Platform health aggregator (`analyze_job_patterns` and
`create_platform_health_summary` in `src/agents/airbyte_agent.py`) -/

/-- One element of the `jobs_data` list handed to `analyze_job_patterns`:
either a job dict produced by `get_airbyte_jobs`, or the error dict
`{"error": ...}` that the tool returns on failure (the analyzer checks for
the `"error"` key). -/
inductive AgentJobEntry where
  | errorEntry (msg : String)
  | job (job_name : String) (status : String) (error_message : Option String)
      (duration_seconds : Option Int)
deriving Repr, DecidableEq

/-- Whether a `jobs_data` entry carries the `"error"` key. -/
def AgentJobEntry.isError : AgentJobEntry → Bool
  | .errorEntry _ => true
  | .job _ _ _ _ => false

/-- `job.get("status")` of an entry (the error dict has no status). -/
def AgentJobEntry.status? : AgentJobEntry → Option String
  | .errorEntry _ => none
  | .job _ s _ _ => some s

/-- The error-pattern tally built by `analyze_job_patterns` over failed
jobs with a truthy error message, categorized by substring. -/
structure ErrorPatterns where
  timeout : Nat
  connection : Nat
  authentication : Nat
  other : Nat
deriving Repr, DecidableEq

/-- Python `needle in haystack` substring test. -/
def strContains (haystack needle : String) : Bool :=
  (haystack.splitOn needle).length > 1

/-- The per-job error categorization of `analyze_job_patterns` (only failed
jobs with a truthy `error_message` are tallied). -/
def tallyErrorPatterns (entries : List AgentJobEntry) : ErrorPatterns :=
  entries.foldl
    (fun acc entry =>
      match entry with
      | .job _ status (some msg) _ =>
          if status = "failed" ∧ msg ≠ "" then
            let m := pyLower msg
            if strContains m "timeout" then { acc with timeout := acc.timeout + 1 }
            else if strContains m "connection" then { acc with connection := acc.connection + 1 }
            else if strContains m "authentication" ∨ strContains m "auth" then
              { acc with authentication := acc.authentication + 1 }
            else { acc with other := acc.other + 1 }
          else acc
      | _ => acc)
    ⟨0, 0, 0, 0⟩

/-- The analysis dict returned by `analyze_job_patterns` on its success
path. -/
structure JobPatternAnalysis where
  total_jobs : Nat
  successful_jobs : Nat
  failed_jobs : Nat
  running_jobs : Nat
  success_rate : ℚ
  failure_rate : ℚ
  failed_job_names : List String
  error_patterns : ErrorPatterns
deriving Repr, DecidableEq

/-- `analyze_job_patterns`: an empty batch, or any entry carrying the
`"error"` key, short-circuits to the error dict `{"error": "No valid job
data available for analysis"}`; otherwise counts are tallied and the rates
computed, with `0` (not `100`) as the `total_jobs == 0` fallback. -/
def analyzeJobPatterns (jobs_data : List AgentJobEntry) :
    Except String JobPatternAnalysis :=
  if jobs_data.isEmpty ∨ jobs_data.any AgentJobEntry.isError then
    .error "No valid job data available for analysis"
  else
    let total_jobs := jobs_data.length
    let successful_jobs := (jobs_data.filter (fun j => j.status? = some "success")).length
    let failed_jobs := (jobs_data.filter (fun j => j.status? = some "failed")).length
    let running_jobs := (jobs_data.filter (fun j => j.status? = some "running")).length
    let success_rate : ℚ :=
      if total_jobs > 0 then (successful_jobs : ℚ) / (total_jobs : ℚ) * 100 else 0
    let failure_rate : ℚ :=
      if total_jobs > 0 then (failed_jobs : ℚ) / (total_jobs : ℚ) * 100 else 0
    let failed_job_names :=
      (jobs_data.filterMap (fun j =>
        match j with
        | .job name "failed" _ _ => some name
        | _ => none)).dedup
    .ok
      { total_jobs := total_jobs
        successful_jobs := successful_jobs
        failed_jobs := failed_jobs
        running_jobs := running_jobs
        success_rate := success_rate
        failure_rate := failure_rate
        failed_job_names := failed_job_names
        error_patterns := tallyErrorPatterns jobs_data }

/-- One element of `connections_health`: either a health dict with its
`is_healthy` flag, or an error dict. -/
inductive ConnHealthEntry where
  | errorEntry (msg : String)
  | conn (is_healthy : Bool)
deriving Repr, DecidableEq

/-- Whether a `connections_health` entry carries the `"error"` key. -/
def ConnHealthEntry.isError : ConnHealthEntry → Bool
  | .errorEntry _ => true
  | .conn _ => false

/-- `conn.get("is_healthy", False)`. -/
def ConnHealthEntry.isHealthy : ConnHealthEntry → Bool
  | .errorEntry _ => false
  | .conn h => h

/-- The summary dict returned by `create_platform_health_summary` on its
success path. -/
structure AirbytePlatformSummary where
  platform : String
  total_jobs : Nat
  successful_jobs : Nat
  failed_jobs : Nat
  running_jobs : Nat
  platform_status : String
  risk_level : String
  success_rate : ℚ
  failure_rate : ℚ
  total_connections : Nat
  healthy_connections : Nat
  issues : List String
  recommendations : List String
  requires_attention : Bool
deriving Repr, DecidableEq

/-- Render a rate for an issue string (the source interpolates a Python
float with `:.1f`; the exact decimal text is immaterial to every claim). -/
def rateText (q : ℚ) : String := toString q.num ++ "/" ++ toString q.den

/-- `create_platform_health_summary`: an error in the analysis or in any
connection entry yields `{"error": "Insufficient data for health summary"}`;
otherwise the platform status is classified from `success_rate` and
`failed_jobs` strictest-first, and issues/recommendations are appended in
source order. -/
def createPlatformHealthSummary (jobs_analysis : Except String JobPatternAnalysis)
    (connections_health : List ConnHealthEntry) :
    Except String AirbytePlatformSummary :=
  match jobs_analysis with
  | .error _ => .error "Insufficient data for health summary"
  | .ok a =>
      if connections_health.any ConnHealthEntry.isError then
        .error "Insufficient data for health summary"
      else
        let success_rate := a.success_rate
        let failed_jobs := a.failed_jobs
        let (platform_status, risk_level) :=
          if success_rate ≥ 95 ∧ failed_jobs = 0 then
            ("Excellent - All systems operational", "LOW")
          else if success_rate ≥ 85 ∧ failed_jobs ≤ 2 then
            ("Good - Minor issues detected", "LOW")
          else if success_rate ≥ 70 ∧ failed_jobs ≤ 5 then
            ("Fair - Some issues need attention", "MEDIUM")
          else if success_rate ≥ 50 then
            ("Poor - Multiple issues detected", "HIGH")
          else
            ("Critical - Major failures detected", "CRITICAL")
        let recommendations :=
          (if failed_jobs > 0 then
            ["Investigate " ++ toString failed_jobs ++ " failed jobs"] else []) ++
          (if a.error_patterns.timeout > 0 then
            ["Review job timeout configurations"] else []) ++
          (if a.error_patterns.connection > 0 then
            ["Check connection configurations and network connectivity"] else []) ++
          (if a.error_patterns.authentication > 0 then
            ["Verify API credentials and authentication settings"] else []) ++
          (if success_rate < 90 then
            ["Consider implementing job retry mechanisms"] else [])
        let total_connections := connections_health.length
        let healthy_connections :=
          (connections_health.filter ConnHealthEntry.isHealthy).length
        let issues :=
          (if failed_jobs > 3 then
            ["High number of failed jobs: " ++ toString failed_jobs] else []) ++
          (if success_rate < 85 then
            ["Low success rate: " ++ rateText success_rate ++ "%"] else []) ++
          (if total_connections > healthy_connections then
            [toString (total_connections - healthy_connections) ++
              " unhealthy connections detected"] else [])
        .ok
          { platform := "airbyte"
            total_jobs := a.total_jobs
            successful_jobs := a.successful_jobs
            failed_jobs := failed_jobs
            running_jobs := a.running_jobs
            platform_status := platform_status
            risk_level := risk_level
            success_rate := success_rate
            failure_rate := a.failure_rate
            total_connections := total_connections
            healthy_connections := healthy_connections
            issues := issues
            recommendations := recommendations
            requires_attention :=
              risk_level = "HIGH" ∨ risk_level = "CRITICAL" ∨ issues.length > 2 }

/-! ## `PlatformHealthSummary` rates (`src/models/job_status.py`) -/

/-- The `PlatformHealthSummary` pydantic model: all counts carry `ge=0`
(hence `Nat`); nothing constrains `successful_jobs`/`failed_jobs` against
`total_jobs`. -/
structure PlatformHealthSummary where
  platform : String
  total_jobs : Nat
  successful_jobs : Nat
  failed_jobs : Nat
  running_jobs : Nat
  platform_status : String
  issues : List String
deriving Repr, DecidableEq

/-- The `success_rate` property: `0` when `total_jobs == 0`, else
`successful_jobs / total_jobs * 100`. -/
def PlatformHealthSummary.success_rate (s : PlatformHealthSummary) : ℚ :=
  if s.total_jobs = 0 then 0
  else (s.successful_jobs : ℚ) / (s.total_jobs : ℚ) * 100

/-- The `failure_rate` property: `0` when `total_jobs == 0`, else
`failed_jobs / total_jobs * 100`. -/
def PlatformHealthSummary.failure_rate (s : PlatformHealthSummary) : ℚ :=
  if s.total_jobs = 0 then 0
  else (s.failed_jobs : ℚ) / (s.total_jobs : ℚ) * 100

/-! ## Overall health assessor and notification gate
(`assess_overall_system_health` and `send_health_notifications` in
`src/agents/orchestrator_agent.py`) -/

/-- Python `str.title()`: a letter that follows a non-letter is upper-cased,
a letter that follows a letter is lower-cased (only issue strings pass
through this; the claims never inspect its output). -/
def pyTitle (s : String) : String :=
  (s.toList.foldl
    (fun (acc : List Char × Bool) c =>
      if c.isAlpha then
        (acc.1 ++ [if acc.2 then pyCharLower c else pyCharUpper c], true)
      else (acc.1 ++ [c], false))
    ([], false)).1.asString

/-- The `monitoring_data` dict of a successful platform result, as read by
the assessor: `total_jobs`/`failed_jobs` via `.get(..., 0)` plus optional
`issues`/`recommendations` lists (extending by an absent or empty list is a
no-op either way). -/
structure MonitoringData where
  total_jobs : Int
  failed_jobs : Int
  issues : List String
  recommendations : List String
deriving Repr, DecidableEq

/-- One element of `platform_results`: the platform tag, the success flag of
the collector call, the monitoring payload when it is a dict (`none` models
both an absent payload and the string payload skipped by the `isinstance`
check), and the error text of a failed call. -/
structure PlatformResult where
  platform : String
  success : Bool
  monitoring_data : Option MonitoringData
  error : Option String
deriving Repr, DecidableEq

/-- The assessor's accumulator: job totals, platform tallies, and the
issue/recommendation lists in append order. -/
structure AssessFold where
  total_jobs : Int
  failed_jobs : Int
  successful_platforms : Nat
  failed_platforms : Nat
  critical_issues : List String
  recommendations : List String
deriving Repr, DecidableEq

/-- The body of the assessor's `for platform_result in platform_results`
loop, one step. -/
def assessStep (acc : AssessFold) (pr : PlatformResult) : AssessFold :=
  if pr.success then
    match pr.monitoring_data with
    | some md =>
        { acc with
          successful_platforms := acc.successful_platforms + 1
          total_jobs := acc.total_jobs + md.total_jobs
          failed_jobs := acc.failed_jobs + md.failed_jobs
          critical_issues :=
            acc.critical_issues ++ md.issues ++
            (if md.failed_jobs > 5 then
              [pyTitle pr.platform ++ " has " ++ toString md.failed_jobs ++
                " failed jobs"] else [])
          recommendations := acc.recommendations ++ md.recommendations }
    | none => { acc with successful_platforms := acc.successful_platforms + 1 }
  else
    { acc with
      failed_platforms := acc.failed_platforms + 1
      critical_issues :=
        acc.critical_issues ++
        [pyTitle pr.platform ++ " monitoring failed: " ++
          (pr.error.getD "Unknown error")] }

/-- The assessor's loop over all platform results. -/
def assessFold (platform_results : List PlatformResult) : AssessFold :=
  platform_results.foldl assessStep ⟨0, 0, 0, 0, [], []⟩

/-- The assessment dict built on the assessor's success path. -/
structure Assessment where
  overall_health : String
  risk_level : String
  requires_notification : Bool
  jobs_analyzed : Int
  failed_jobs_count : Int
  success_rate : ℚ
  platform_availability : ℚ
  successful_platforms : Nat
  failed_platforms : Nat
  critical_issues : List String
  recommendations : List String
deriving Repr, DecidableEq

/-- The four-tier first-match risk chain of the assessor (the `if/elif`
ladder at the heart of `assess_overall_system_health`), returning the
`(risk_level, overall_health)` pair. -/
def codeRiskChain (failed_platforms : Nat) (failed_jobs : Int) (success_rate : ℚ)
    (issue_count : Nat) : String × String :=
  if failed_platforms > 1 ∨ failed_jobs > 15 then
    ("CRITICAL", "Critical - Multiple systems experiencing issues")
  else if failed_platforms = 1 ∨ failed_jobs > 8 then
    ("HIGH", "Poor - Significant issues detected")
  else if failed_jobs > 3 ∨ success_rate < 90 then
    ("MEDIUM", "Fair - Some issues require attention")
  else if success_rate < 98 ∨ issue_count > 0 then
    ("LOW", "Good - Minor issues detected")
  else
    ("LOW", "Excellent - All systems operational")

/-- The metric-and-risk computation that follows the loop: success rate with
a `100` fallback for `total_jobs == 0`, the four-tier first-match risk
chain, the notification rule, and duplicate removal (`list(set(...))`) on
the issue lists.  `n` is `len(platform_results)`. -/
def buildAssessment (n : Nat) (f : AssessFold) : Assessment :=
  let success_rate : ℚ :=
    if f.total_jobs > 0 then
      ((f.total_jobs - f.failed_jobs : Int) : ℚ) / (f.total_jobs : ℚ) * 100
    else 100
  let platform_availability : ℚ := (f.successful_platforms : ℚ) / (n : ℚ) * 100
  let rh :=
    codeRiskChain f.failed_platforms f.failed_jobs success_rate f.critical_issues.length
  let risk_level := rh.1
  let overall_health := rh.2
  { overall_health := overall_health
    risk_level := risk_level
    requires_notification :=
      risk_level = "HIGH" ∨ risk_level = "CRITICAL" ∨ f.failed_jobs > 5
    jobs_analyzed := f.total_jobs
    failed_jobs_count := f.failed_jobs
    success_rate := success_rate
    platform_availability := platform_availability
    successful_platforms := f.successful_platforms
    failed_platforms := f.failed_platforms
    critical_issues := f.critical_issues.dedup
    recommendations := f.recommendations.dedup }

/-- The `try` body of `assess_overall_system_health`.  With an empty
`platform_results` list the `platform_availability` line divides by
`len(platform_results) == 0`, raising `ZeroDivisionError`; every other step
is total over the typed payload. -/
def assessBody (platform_results : List PlatformResult) : Except String Assessment :=
  if platform_results.isEmpty then
    .error "ZeroDivisionError: division by zero"
  else
    .ok (buildAssessment platform_results.length (assessFold platform_results))

/-- The result of `assess_overall_system_health`: the normal assessment, or
the degraded dict built by the `except` handler. -/
inductive AssessResult where
  | assessment (a : Assessment)
  | failed (overall_health : String) (risk_level : String)
      (requires_notification : Bool) (error : String)
deriving Repr, DecidableEq

/-- `assess_overall_system_health`: an exception inside the body is caught
and converted into the degraded assessment
(`overall_health = "Unknown - Assessment failed"`, `risk_level = MEDIUM`,
`requires_notification = True`) instead of propagating. -/
def assessOverallSystemHealth (platform_results : List PlatformResult) : AssessResult :=
  match assessBody platform_results with
  | .ok a => .assessment a
  | .error e => .failed "Unknown - Assessment failed" "MEDIUM" true e

/-- The fields of the overall assessment dict that
`send_health_notifications` reads (via `.get` with defaults `"LOW"`,
`False`, `0`). -/
structure NotificationInput where
  risk_level : String
  requires_notification : Bool
  failed_jobs_count : Int
deriving Repr, DecidableEq

/-- The outcome of `send_health_notifications`: either the healthy
short-circuit that returns without touching the email pipeline, or the
branch that invokes the email agent. -/
inductive NotificationOutcome where
  | skipped (reason : String) (risk_level : String)
  | emailAgentInvoked (risk_level : String) (recipients_count : Nat)
deriving Repr, DecidableEq

/-- Whether the email pipeline (renderer/sender) was invoked. -/
def NotificationOutcome.invokedEmailPipeline : NotificationOutcome → Bool
  | .skipped _ _ => false
  | .emailAgentInvoked _ _ => true

/-- `send_health_notifications`: default recipients are substituted for an
empty list, then the healthy short-circuit (`risk_level == "LOW" and
failed_jobs_count == 0 and not requires_notification`) returns the
"no notification needed" dict before any email dependency is touched; every
other input reaches the email agent. -/
def sendHealthNotifications (a : NotificationInput) (recipient_emails : List String) :
    NotificationOutcome :=
  let recipients :=
    if recipient_emails.isEmpty then
      ["devops@company.com", "data-engineering@company.com"]
    else recipient_emails
  if a.risk_level = "LOW" ∧ a.failed_jobs_count = 0 ∧ a.requires_notification = false then
    .skipped "System healthy, no notification required" a.risk_level
  else
    .emailAgentInvoked a.risk_level recipients.length

/-! ## Helper lemmas -/

/-- Pydantic construction never alters the fields: an `.ok` result is the
input record. -/
lemma mkJobStatusRecord_eq_ok {x r : JobStatusRecord}
    (h : mkJobStatusRecord x = Except.ok r) : r = x := by
  cases hd : x.duration_seconds with
  | some d =>
      simp only [mkJobStatusRecord, hd] at h
      split_ifs at h
      simp at h
      exact h.symm
  | none =>
      simp only [mkJobStatusRecord, hd] at h
      split_ifs at h
      simp at h
      exact h.symm

/-- The risk chain only looks at emptiness of the issue list, not its exact
length. -/
lemma codeRiskChain_issue_congr (fp : Nat) (fj : Int) (sr : ℚ) {c c' : Nat}
    (h : c > 0 ↔ c' > 0) :
    codeRiskChain fp fj sr c = codeRiskChain fp fj sr c' := by
  unfold codeRiskChain
  split_ifs <;> tauto

/-! ## Claim theorems -/

/-- C9: every per-platform status mapper is total over all string inputs:
each returns one of the six canonical statuses (never raising), and any
unmapped input — including a Databricks `life_cycle_state` outside
terminated/pending/running, and an unrecognized terminal `result_state` —
maps to `"unknown"`. -/
theorem status_mappers_total :
    ∀ (s₁ s₂ s₃ : String) (st : DatabricksState),
      mapAirbyteStatus s₁ ∈ canonicalStatuses ∧
      mapPowerautomateStatus s₂ ∈ canonicalStatuses ∧
      mapSnowflakeTaskStatus s₃ ∈ canonicalStatuses ∧
      mapDatabricksStatus st ∈ canonicalStatuses ∧
      (pyLower s₁ ∉
          ["succeeded", "failed", "cancelled", "running", "pending", "incomplete"] →
        mapAirbyteStatus s₁ = "unknown") ∧
      (pyLower st.life_cycle_state ∉ ["terminated", "pending", "running"] →
        mapDatabricksStatus st = "unknown") ∧
      (pyLower st.life_cycle_state = "terminated" →
        pyLower st.result_state ∉ ["success", "failed", "canceled"] →
        mapDatabricksStatus st = "unknown") := by
  intro s₁ s₂ s₃ st
  refine ⟨?_, ?_, ?_, ?_, ?_, ?_, ?_⟩
  · simp only [mapAirbyteStatus, canonicalStatuses]
    split_ifs <;> simp
  · simp only [mapPowerautomateStatus, canonicalStatuses]
    split_ifs <;> simp
  · simp only [mapSnowflakeTaskStatus, canonicalStatuses]
    split_ifs <;> simp
  · simp only [mapDatabricksStatus, canonicalStatuses]
    split_ifs <;> simp
  · intro h
    simp only [mapAirbyteStatus]
    split_ifs <;> simp_all
  · intro h
    simp only [mapDatabricksStatus]
    split_ifs <;> simp_all
  · intro h₁ h₂
    simp only [mapDatabricksStatus]
    split_ifs <;> simp_all

/-- Witness for C9: the totality theorem applied at concrete unmapped
inputs, discharging each hypothesis. -/
theorem status_mappers_total_witness :
    mapAirbyteStatus "Borked" = "unknown" ∧
    mapDatabricksStatus ⟨"BLOCKED", "", ""⟩ = "unknown" ∧
    mapDatabricksStatus ⟨"TERMINATED", "TIMEDOUT", ""⟩ = "unknown" :=
  ⟨(status_mappers_total "Borked" "" "" ⟨"BLOCKED", "", ""⟩).2.2.2.2.1 (by decide),
   (status_mappers_total "" "" "" ⟨"BLOCKED", "", ""⟩).2.2.2.2.2.1 (by decide),
   (status_mappers_total "" "" "" ⟨"TERMINATED", "TIMEDOUT", ""⟩).2.2.2.2.2.2
     (by decide) (by decide)⟩

/-- C10: the Databricks normalizer's status mapping and error extraction
disagree on case sensitivity: a run whose state is
`{life_cycle_state: "TERMINATED", result_state: "failed" (lowercase),
state_message: "boom"}` produces a record with status `"failed"` (the
mapper case-folds `result_state`) but `error_message = None` (the error
extraction compares against the exact uppercase `"FAILED"`). -/
theorem databricks_case_fold_disagreement :
    (databricksRecord 0 "Job 3"
        ⟨7, 3, ⟨"TERMINATED", "failed", "boom"⟩, none, none, none⟩).toOption.map
      (fun r => (r.status, r.error_message)) = some ("failed", none) := by
  decide

/-- C3 counterexample: the Airbyte normalizer passes the raw native job id
through unchanged, so the record for an Airbyte job with native id
`"12345"` has `job_id = "12345"`, which does not begin with the platform
prefix `"airbyte_"`. -/
theorem airbyte_job_id_not_prefixed :
    (airbyteRecord 0 ⟨"12345", "c1", some "Sync", "sync", "succeeded", none, none⟩).toOption.map
      (fun r => (r.job_id, r.job_id.startsWith "airbyte_")) = some ("12345", false) := by
  decide

/-- C3 (amended): the Databricks, Power Automate and Snowflake normalizers
compose `job_id` as `"{platform}_{native_id}_{run_id}"` (with Snowflake
falling back to the literal `"unknown"` for a falsy run id), but the
Airbyte normalizer uses the raw native job id with no platform prefix. -/
theorem job_id_composition :
    ∀ (now : Int) (j : AirbyteJob) (dn : String) (dr : DatabricksRun)
      (fl : PAFlow) (pa : PARun) (t : SnowflakeTask) (r : JobStatusRecord),
      (airbyteRecord now j = Except.ok r → r.job_id = j.job_id) ∧
      (databricksRecord now dn dr = Except.ok r →
        r.job_id = "databricks_" ++ toString dr.job_id ++ "_" ++ toString dr.run_id) ∧
      (powerautomateRecord now fl pa = Except.ok r →
        r.job_id = "powerautomate_" ++ fl.id ++ "_" ++ pa.run_id) ∧
      (snowflakeTaskRecord now t = Except.ok r →
        r.job_id = "snowflake_task_" ++ t.name ++ "_" ++
          (match t.run_id with
            | some v => if v = 0 then "unknown" else toString v
            | none => "unknown")) := by
  intro now j dn dr fl pa t r
  refine ⟨?_, ?_, ?_, ?_⟩ <;>
    · intro h
      rw [mkJobStatusRecord_eq_ok h]

/-- Concrete inputs for the C3 witness: one job/run per platform. -/
def c3AirbyteJob : AirbyteJob := ⟨"55", "c", some "S", "sync", "succeeded", none, none⟩

/-- The record the Airbyte normalizer produces for `c3AirbyteJob`. -/
def c3AirbyteRec : JobStatusRecord :=
  { job_id := "55", platform := "airbyte", job_name := "S", status := "success",
    last_run_time := none, duration_seconds := none, error_message := none,
    checked_at := 0 }

/-- Concrete Databricks run for the C3 witness. -/
def c3DbRun : DatabricksRun := ⟨7, 3, ⟨"", "", ""⟩, none, none, none⟩

/-- The record the Databricks normalizer produces for `c3DbRun`. -/
def c3DbRec : JobStatusRecord :=
  { job_id := "databricks_3_7", platform := "databricks", job_name := "J",
    status := "unknown", last_run_time := none, duration_seconds := none,
    error_message := none, checked_at := 0 }

/-- Concrete Power Automate flow for the C3 witness. -/
def c3Flow : PAFlow := ⟨"f9", "Flow", "Started"⟩

/-- Concrete Power Automate run for the C3 witness. -/
def c3PARun : PARun := ⟨"r2", "Succeeded", none, none⟩

/-- The record the Power Automate normalizer produces for `c3Flow`/`c3PARun`. -/
def c3PARec : JobStatusRecord :=
  { job_id := "powerautomate_f9_r2", platform := "power_automate",
    job_name := "Flow", status := "success", last_run_time := none,
    duration_seconds := none, error_message := none, checked_at := 0 }

/-- Concrete Snowflake task row for the C3 witness (zero run id, exercising
the Python-truthiness fallback). -/
def c3Task : SnowflakeTask := ⟨"T", "DB", "SCH", "SUCCEEDED", none, none, some 0, none, none⟩

/-- The record the Snowflake normalizer produces for `c3Task`. -/
def c3TaskRec : JobStatusRecord :=
  { job_id := "snowflake_task_T_unknown", platform := "snowflake_task",
    job_name := "DB.SCH.T", status := "success", last_run_time := none,
    duration_seconds := none, error_message := none, checked_at := 0 }

/-- Witness for C3: the composition theorem applied at concrete inputs of
each platform, each construction hypothesis discharged by evaluation. -/
theorem job_id_composition_witness :
    c3AirbyteRec.job_id = c3AirbyteJob.job_id ∧
    c3DbRec.job_id = "databricks_" ++ toString c3DbRun.job_id ++ "_" ++ toString c3DbRun.run_id ∧
    c3PARec.job_id = "powerautomate_" ++ c3Flow.id ++ "_" ++ c3PARun.run_id ∧
    c3TaskRec.job_id = "snowflake_task_" ++ c3Task.name ++ "_" ++
      (match c3Task.run_id with
        | some v => if v = 0 then "unknown" else toString v
        | none => "unknown") :=
  ⟨(job_id_composition 0 c3AirbyteJob "J" c3DbRun c3Flow c3PARun c3Task c3AirbyteRec).1 rfl,
   (job_id_composition 0 c3AirbyteJob "J" c3DbRun c3Flow c3PARun c3Task c3DbRec).2.1 rfl,
   (job_id_composition 0 c3AirbyteJob "J" c3DbRun c3Flow c3PARun c3Task c3PARec).2.2.1 rfl,
   (job_id_composition 0 c3AirbyteJob "J" c3DbRun c3Flow c3PARun c3Task c3TaskRec).2.2.2 rfl⟩

/-- C4 counterexample: a Snowflake task-history row whose state maps to
`cancelled` but which carries an `ERROR_MESSAGE` still produces a record
with a non-null `error_message` — the Snowflake normalizer copies the raw
error field unconditionally, so a non-`failed` record can carry it. -/
theorem snowflake_stale_error_kept :
    (snowflakeTaskRecord 0
        ⟨"T1", "DB", "SCH", "CANCELLED", none, none, some 1, none, some "stale error"⟩).toOption.map
      (fun r => (r.status, r.error_message)) = some ("cancelled", some "stale error") ∧
    ("cancelled" : String) ≠ "failed" := by
  constructor
  · decide
  · decide

/-- C4 (amended): `error_message` extraction is platform-specific rather
than gated on the canonical status: Airbyte records always carry `none`;
Databricks records carry the state message exactly when the raw
`result_state` equals the uppercase `"FAILED"` and the message is nonempty
(so a non-`"FAILED"` result always yields `none`); Snowflake task records
copy the raw `ERROR_MESSAGE` unconditionally, whatever the status. -/
theorem error_message_extraction :
    ∀ (now : Int) (j : AirbyteJob) (dn : String) (dr : DatabricksRun)
      (t : SnowflakeTask) (r : JobStatusRecord),
      (airbyteRecord now j = Except.ok r → r.error_message = none) ∧
      (databricksRecord now dn dr = Except.ok r →
        r.error_message =
          (if dr.state.result_state = "FAILED" ∧ dr.state.state_message ≠ "" then
            some dr.state.state_message
          else none)) ∧
      (snowflakeTaskRecord now t = Except.ok r → r.error_message = t.error_message) := by
  intro now j dn dr t r
  refine ⟨?_, ?_, ?_⟩
  · intro h
    rw [mkJobStatusRecord_eq_ok h]
  · intro h
    rw [mkJobStatusRecord_eq_ok h]
    show (if dr.state.result_state = "FAILED" then
        (if dr.state.state_message = "" then none else some dr.state.state_message)
      else none) = _
    split_ifs <;> simp_all
  · intro h
    rw [mkJobStatusRecord_eq_ok h]

/-- Concrete Databricks run for the C4 witness: a terminated run whose raw
`result_state` is the exact uppercase `"FAILED"` with a nonempty message. -/
def c4DbRun : DatabricksRun := ⟨7, 3, ⟨"TERMINATED", "FAILED", "boom"⟩, none, none, none⟩

/-- The record the Databricks normalizer produces for `c4DbRun`: status
`"failed"` carrying the state message. -/
def c4DbRec : JobStatusRecord :=
  { job_id := "databricks_3_7", platform := "databricks", job_name := "J",
    status := "failed", last_run_time := none, duration_seconds := none,
    error_message := some "boom", checked_at := 0 }

/-- Witness for C4: the extraction theorem applied at concrete inputs —
including a `"FAILED"` Databricks run, whose record is shown to carry the
state message — with each construction hypothesis discharged by
evaluation. -/
theorem error_message_extraction_witness :
    c3AirbyteRec.error_message = none ∧
    c4DbRec.error_message =
      (if c4DbRun.state.result_state = "FAILED" ∧ c4DbRun.state.state_message ≠ "" then
        some c4DbRun.state.state_message
      else none) ∧
    c3DbRec.error_message =
      (if c3DbRun.state.result_state = "FAILED" ∧ c3DbRun.state.state_message ≠ "" then
        some c3DbRun.state.state_message
      else none) ∧
    c3TaskRec.error_message = c3Task.error_message :=
  ⟨(error_message_extraction 0 c3AirbyteJob "J" c4DbRun c3Task c3AirbyteRec).1 rfl,
   (error_message_extraction 0 c3AirbyteJob "J" c4DbRun c3Task c4DbRec).2.1 rfl,
   (error_message_extraction 0 c3AirbyteJob "J" c3DbRun c3Task c3DbRec).2.1 rfl,
   (error_message_extraction 0 c3AirbyteJob "J" c3DbRun c3Task c3TaskRec).2.2 rfl⟩

/-- C5 counterexample: an empty record batch is not classified
healthy-by-default — the pattern analyzer returns the error outcome, and
the health-summary step propagates it, so no summary (in particular no
"Excellent" one) is produced and no success rate of 100 appears. -/
theorem empty_batch_not_excellent :
    analyzeJobPatterns [] = Except.error "No valid job data available for analysis" ∧
    createPlatformHealthSummary (analyzeJobPatterns []) [] =
      Except.error "Insufficient data for health summary" := by
  constructor
  · rfl
  · rfl

/-- C5 (amended): observing zero jobs is treated as missing data, not as
health: an empty batch short-circuits `analyze_job_patterns` to the error
dict, and `create_platform_health_summary` turns any analysis error into
its own error outcome for every connection-health input (the
`total_jobs == 0` fallback inside the analyzer is `0`, not `100`). -/
theorem empty_batch_error_path :
    ∀ (e : String) (conns : List ConnHealthEntry),
      analyzeJobPatterns [] = Except.error "No valid job data available for analysis" ∧
      createPlatformHealthSummary (Except.error e) conns =
        Except.error "Insufficient data for health summary" := by
  intro e conns
  exact ⟨rfl, rfl⟩

/-- The C6 counterexample summary: 2 jobs, 1 successful, 1 running, none
failed — a perfectly legal `PlatformHealthSummary`. -/
def c6Summary : PlatformHealthSummary := ⟨"airbyte", 2, 1, 0, 1, "Good", []⟩

/-- C6 counterexample: with a running job present, `success_rate +
failure_rate` is 50, not 100, although `total_jobs > 0`. -/
theorem rates_do_not_sum_to_100 :
    c6Summary.total_jobs > 0 ∧
    c6Summary.success_rate + c6Summary.failure_rate = 50 ∧
    c6Summary.success_rate + c6Summary.failure_rate ≠ 100 := by
  refine ⟨by decide, ?_, ?_⟩
  · show (if (2:Nat) = 0 then (0:ℚ) else (1:ℚ)/2*100) +
      (if (2:Nat) = 0 then (0:ℚ) else (0:ℚ)/2*100) = 50
    norm_num
  · show (if (2:Nat) = 0 then (0:ℚ) else (1:ℚ)/2*100) +
      (if (2:Nat) = 0 then (0:ℚ) else (0:ℚ)/2*100) ≠ 100
    norm_num

/-- C6 (amended): both rates are `0` when `total_jobs == 0`; each rate is
bounded by `[0, 100]` whenever its numerator does not exceed `total_jobs`;
and for `total_jobs > 0` the two rates sum to 100 exactly when
`successful_jobs + failed_jobs == total_jobs` — running/pending/unknown
jobs push the sum below 100. -/
theorem rate_bounds :
    ∀ s : PlatformHealthSummary,
      (s.total_jobs = 0 → s.success_rate = 0 ∧ s.failure_rate = 0) ∧
      (s.successful_jobs ≤ s.total_jobs →
        0 ≤ s.success_rate ∧ s.success_rate ≤ 100) ∧
      (s.failed_jobs ≤ s.total_jobs →
        0 ≤ s.failure_rate ∧ s.failure_rate ≤ 100) ∧
      (0 < s.total_jobs →
        (s.success_rate + s.failure_rate = 100 ↔
          s.successful_jobs + s.failed_jobs = s.total_jobs)) := by
  intro s
  have hrate : ∀ (k t : Nat), k ≤ t →
      0 ≤ (if t = 0 then (0:ℚ) else (k:ℚ)/(t:ℚ)*100) ∧
      (if t = 0 then (0:ℚ) else (k:ℚ)/(t:ℚ)*100) ≤ 100 := by
    intro k t hk
    rcases Nat.eq_zero_or_pos t with ht | ht
    · simp [ht]
    · have ht' : (0:ℚ) < (t:ℚ) := by exact_mod_cast ht
      rw [if_neg (Nat.pos_iff_ne_zero.mp ht)]
      constructor
      · positivity
      · have hk' : (k:ℚ) ≤ (t:ℚ) := by exact_mod_cast hk
        rw [div_mul_eq_mul_div, div_le_iff₀ ht']
        nlinarith
  refine ⟨?_, ?_, ?_, ?_⟩
  · intro h
    simp [PlatformHealthSummary.success_rate, PlatformHealthSummary.failure_rate, h]
  · intro h
    exact hrate s.successful_jobs s.total_jobs h
  · intro h
    exact hrate s.failed_jobs s.total_jobs h
  · intro h
    have ht : s.total_jobs ≠ 0 := h.ne'
    have ht' : ((s.total_jobs : ℚ)) ≠ 0 := by exact_mod_cast ht
    unfold PlatformHealthSummary.success_rate PlatformHealthSummary.failure_rate
    rw [if_neg ht, if_neg ht]
    constructor
    · intro hsum
      have : (s.successful_jobs : ℚ) + (s.failed_jobs : ℚ) = (s.total_jobs : ℚ) := by
        field_simp at hsum
        linarith
      exact_mod_cast this
    · intro hsum
      have : (s.successful_jobs : ℚ) + (s.failed_jobs : ℚ) = (s.total_jobs : ℚ) := by
        exact_mod_cast hsum
      field_simp
      linarith

/-- The C6 witness summary: the 10-jobs/8-success/1-failed example of the
model docstring. -/
def c6Wit : PlatformHealthSummary := ⟨"airbyte", 10, 8, 1, 1, "Healthy", []⟩

/-- Witness for C6: the amended rate bounds applied to `c6Wit`, every
hypothesis discharged by evaluation. -/
theorem rate_bounds_witness :
    (0 ≤ c6Wit.success_rate ∧ c6Wit.success_rate ≤ 100) ∧
    (0 ≤ c6Wit.failure_rate ∧ c6Wit.failure_rate ≤ 100) ∧
    (c6Wit.success_rate + c6Wit.failure_rate = 100 ↔
      c6Wit.successful_jobs + c6Wit.failed_jobs = c6Wit.total_jobs) :=
  ⟨(rate_bounds c6Wit).2.1 (by decide),
   (rate_bounds c6Wit).2.2.1 (by decide),
   (rate_bounds c6Wit).2.2.2 (by decide)⟩

/-- The conversion loop succeeds exactly when every item's record
construction succeeds. -/
lemma airbyteRecordsLoop_isOk_iff (now : Int) (jobs : List AirbyteJob) :
    (airbyteRecordsLoop now jobs).toOption.isSome = true ↔
      ∀ j ∈ jobs, (airbyteRecord now j).toOption.isSome = true := by
  induction jobs with
  | nil => simp [airbyteRecordsLoop, Except.toOption]
  | cons j rest ih =>
      simp only [airbyteRecordsLoop]
      cases h : airbyteRecord now j with
      | error e => simp [h, Except.toOption]
      | ok r =>
          cases h2 : airbyteRecordsLoop now rest with
          | error e => simp_all [Except.toOption]
          | ok rs => simp_all [Except.toOption]

/-- The conversion loop preserves the batch length on success. -/
lemma airbyteRecordsLoop_length (now : Int) :
    ∀ (jobs : List AirbyteJob) (rs : List JobStatusRecord),
      airbyteRecordsLoop now jobs = Except.ok rs → rs.length = jobs.length := by
  intro jobs
  induction jobs with
  | nil =>
      intro rs h
      simp only [airbyteRecordsLoop] at h
      cases h
      rfl
  | cons j rest ih =>
      intro rs h
      simp only [airbyteRecordsLoop] at h
      cases hj : airbyteRecord now j with
      | error e => rw [hj] at h; cases h
      | ok r =>
          rw [hj] at h
          cases h2 : airbyteRecordsLoop now rest with
          | error e => rw [h2] at h; cases h
          | ok rs' =>
              rw [h2] at h
              cases h
              simp [ih rs' h2]

/-- The error-wrapping of `get_airbyte_job_status` does not change whether
the batch succeeded, nor the records on success. -/
lemma getAirbyteJobStatus_eq_loop (now : Int) (jobs : List AirbyteJob) :
    (getAirbyteJobStatus now jobs).toOption = (airbyteRecordsLoop now jobs).toOption := by
  unfold getAirbyteJobStatus
  cases h : airbyteRecordsLoop now jobs <;> simp [Except.toOption]

/-- The C7 counterexample batch: a convertible job followed by one whose
end time precedes its start time. -/
def c7Good : AirbyteJob := ⟨"1", "c", some "A", "sync", "succeeded", none, none⟩

/-- The bad item of the C7 batch: both timestamps parse but the computed
duration is negative, so pydantic record construction raises. -/
def c7Bad : AirbyteJob :=
  ⟨"2", "c", some "B", "sync", "succeeded", some (IsoTime.valid 100), some (IsoTime.valid 50)⟩

/-- C7 counterexample: a batch in which exactly one item fails to convert
(the item whose record construction raises on a negative duration) is
aborted wholesale — `get_airbyte_job_status` raises `AirbyteAPIError` and
returns no records at all, instead of skipping the bad item. -/
theorem airbyte_batch_aborts :
    (airbyteRecord 0 c7Good).toOption.isSome = true ∧
    (airbyteRecord 0 c7Bad).toOption.isSome = false ∧
    getAirbyteJobStatus 0 [c7Good, c7Bad] =
      Except.error "Failed to get job status: ValidationError: duration_seconds must be >= 0" := by
  refine ⟨by decide, by decide, rfl⟩

/-- C7 (amended): Airbyte batch conversion is best-effort only at field
level — an item whose timestamp fails to parse is kept with
`last_run_time = None` — but not at record level: the batch returns
records (one per item, in order) exactly when every item's record
construction succeeds, and a single construction failure aborts the whole
batch with an error rather than being skipped. -/
theorem airbyte_batch_not_best_effort :
    ∀ (now : Int) (jobs : List AirbyteJob),
      ((getAirbyteJobStatus now jobs).toOption.isSome = true ↔
        ∀ j ∈ jobs, (airbyteRecord now j).toOption.isSome = true) ∧
      (∀ rs, getAirbyteJobStatus now jobs = Except.ok rs → rs.length = jobs.length) ∧
      (∀ (j : AirbyteJob) (r : JobStatusRecord), j.started_at = some IsoTime.invalid →
        airbyteRecord now j = Except.ok r → r.last_run_time = none) := by
  intro now jobs
  refine ⟨?_, ?_, ?_⟩
  · rw [show (getAirbyteJobStatus now jobs).toOption.isSome =
        (airbyteRecordsLoop now jobs).toOption.isSome from by
          rw [getAirbyteJobStatus_eq_loop]]
    exact airbyteRecordsLoop_isOk_iff now jobs
  · intro rs h
    apply airbyteRecordsLoop_length now jobs rs
    unfold getAirbyteJobStatus at h
    cases h2 : airbyteRecordsLoop now jobs with
    | error e => rw [h2] at h; cases h
    | ok rs' => rw [h2] at h; cases h; rfl
  · intro j r hj h
    rw [mkJobStatusRecord_eq_ok h]
    simp [hj, IsoTime.parse]

/-- The job with an unparsable timestamp used in the C7 witness. -/
def c7Unparsable : AirbyteJob :=
  ⟨"3", "c", some "C", "sync", "succeeded", some IsoTime.invalid, none⟩

/-- The record produced for `c7Unparsable`: kept, with a null
`last_run_time`. -/
def c7UnparsableRec : JobStatusRecord :=
  { job_id := "3", platform := "airbyte", job_name := "C", status := "success",
    last_run_time := none, duration_seconds := none, error_message := none,
    checked_at := 0 }

/-- The record produced for `c7Good`. -/
def c7GoodRec : JobStatusRecord :=
  { job_id := "1", platform := "airbyte", job_name := "A", status := "success",
    last_run_time := none, duration_seconds := none, error_message := none,
    checked_at := 0 }

/-- Witness for C7: the amended batch theorem applied at concrete inputs,
each hypothesis discharged by evaluation. -/
theorem airbyte_batch_not_best_effort_witness :
    ((getAirbyteJobStatus 0 [c7Good]).toOption.isSome = true) ∧
    ([c7GoodRec].length = [c7Good].length) ∧
    (c7UnparsableRec.last_run_time = none) :=
  ⟨(airbyte_batch_not_best_effort 0 [c7Good]).1.mpr (by decide),
   (airbyte_batch_not_best_effort 0 [c7Good]).2.1 [c7GoodRec] rfl,
   (airbyte_batch_not_best_effort 0 []).2.2 c7Unparsable c7UnparsableRec rfl rfl⟩

/-- C2: for every assessment with `risk_level` LOW, zero failed jobs and
`requires_notification` false, `send_health_notifications` takes the
healthy short-circuit: it returns the "no notification needed" outcome and
never invokes the email pipeline, for any recipient list. -/
theorem notification_healthy_short_circuit
    (a : NotificationInput) (recipient_emails : List String)
    (h₁ : a.risk_level = "LOW") (h₂ : a.failed_jobs_count = 0)
    (h₃ : a.requires_notification = false) :
    sendHealthNotifications a recipient_emails =
      NotificationOutcome.skipped "System healthy, no notification required" "LOW" ∧
    (sendHealthNotifications a recipient_emails).invokedEmailPipeline = false := by
  have hgate : sendHealthNotifications a recipient_emails =
      NotificationOutcome.skipped "System healthy, no notification required" a.risk_level := by
    unfold sendHealthNotifications
    rw [if_pos ⟨h₁, h₂, h₃⟩]
  rw [hgate, h₁]
  exact ⟨rfl, rfl⟩

/-- Witness for C2: the short-circuit theorem applied to a concrete healthy
assessment with no explicit recipients. -/
theorem notification_healthy_short_circuit_witness :
    sendHealthNotifications ⟨"LOW", false, 0⟩ [] =
      NotificationOutcome.skipped "System healthy, no notification required" "LOW" ∧
    (sendHealthNotifications ⟨"LOW", false, 0⟩ []).invokedEmailPipeline = false :=
  notification_healthy_short_circuit ⟨"LOW", false, 0⟩ [] rfl rfl rfl

/-- C8: an exception inside the overall health assessor does not propagate:
whenever the assessment body fails, `assess_overall_system_health` returns
the degraded assessment with `overall_health = "Unknown - Assessment
failed"`, `risk_level = MEDIUM` and `requires_notification = true`. -/
theorem assess_exception_degraded
    (platform_results : List PlatformResult) (e : String)
    (h : assessBody platform_results = Except.error e) :
    assessOverallSystemHealth platform_results =
      AssessResult.failed "Unknown - Assessment failed" "MEDIUM" true e := by
  unfold assessOverallSystemHealth
  rw [h]

/-- Witness for C8: the degraded-assessment theorem applied to the empty
platform-results list, where the `platform_availability` division raises
`ZeroDivisionError`. -/
theorem assess_exception_degraded_witness :
    assessOverallSystemHealth [] =
      AssessResult.failed "Unknown - Assessment failed" "MEDIUM" true
        "ZeroDivisionError: division by zero" :=
  assess_exception_degraded [] "ZeroDivisionError: division by zero" rfl

/-- The risk-determination rules exactly as the specification phrases them:
first match wins over `failed_platforms`, `failed_jobs`, `success_rate` and
the presence of issues. -/
def riskRuleSpec (failed_platforms : Nat) (failed_jobs : Int) (success_rate : ℚ)
    (issues_present : Prop) [Decidable issues_present] : String × String :=
  if failed_platforms > 1 ∨ failed_jobs > 15 then
    ("CRITICAL", "Critical - Multiple systems experiencing issues")
  else if failed_platforms = 1 ∨ failed_jobs > 8 then
    ("HIGH", "Poor - Significant issues detected")
  else if failed_jobs > 3 ∨ success_rate < 90 then
    ("MEDIUM", "Fair - Some issues require attention")
  else if success_rate < 98 ∨ issues_present then
    ("LOW", "Good - Minor issues detected")
  else
    ("LOW", "Excellent - All systems operational")

/-- The code's risk chain is the specification's rule with "issues present"
read as a positive issue count. -/
lemma codeRiskChain_eq_spec (fp : Nat) (fj : Int) (sr : ℚ) (c : Nat) :
    codeRiskChain fp fj sr c = riskRuleSpec fp fj sr (c > 0) := rfl

/-- The specification's rule only depends on the truth of the
issues-present condition. -/
lemma riskRuleSpec_congr (fp : Nat) (fj : Int) (sr : ℚ) (p q : Prop)
    [Decidable p] [Decidable q] (h : p ↔ q) :
    riskRuleSpec fp fj sr p = riskRuleSpec fp fj sr q := by
  unfold riskRuleSpec
  split_ifs <;> tauto

/-- The risk pair of a built assessment, in specification terms. -/
lemma buildAssessment_risk (n : Nat) (f : AssessFold) :
    ((buildAssessment n f).risk_level, (buildAssessment n f).overall_health) =
      riskRuleSpec f.failed_platforms f.failed_jobs
        (buildAssessment n f).success_rate (f.critical_issues ≠ []) := by
  have h1 : ((buildAssessment n f).risk_level, (buildAssessment n f).overall_health) =
      codeRiskChain f.failed_platforms f.failed_jobs
        (buildAssessment n f).success_rate f.critical_issues.length := rfl
  rw [h1, codeRiskChain_eq_spec]
  exact riskRuleSpec_congr _ _ _ _ _ List.length_pos_iff_ne_nil

/-- C1: the overall health assessor determines risk by the first-match-wins
rules CRITICAL / HIGH / MEDIUM / LOW("Minor issues") / LOW("Excellent") on
`failed_platforms`, `failed_jobs`, `success_rate` and issue presence, sets
`requires_notification` exactly when the risk is HIGH or CRITICAL or more
than 5 jobs failed, and computes `success_rate = (total-failed)/total*100`
with `100` when `total == 0`. -/
theorem assess_risk_rules :
    ∀ (platform_results : List PlatformResult) (a : Assessment),
      assessOverallSystemHealth platform_results = AssessResult.assessment a →
      ((a.risk_level, a.overall_health) =
          riskRuleSpec a.failed_platforms a.failed_jobs_count a.success_rate
            (a.critical_issues ≠ []) ∧
        (a.requires_notification = true ↔
          (a.risk_level = "HIGH" ∨ a.risk_level = "CRITICAL" ∨ a.failed_jobs_count > 5)) ∧
        a.success_rate =
          (if a.jobs_analyzed > 0 then
            ((a.jobs_analyzed - a.failed_jobs_count : Int) : ℚ) / ((a.jobs_analyzed : Int) : ℚ) * 100
          else 100)) := by
  intro rs a h
  have ha : a = buildAssessment rs.length (assessFold rs) := by
    unfold assessOverallSystemHealth assessBody at h
    by_cases hemp : rs.isEmpty
    · rw [if_pos hemp] at h
      simp at h
    · rw [if_neg hemp] at h
      exact (AssessResult.assessment.inj h).symm
  subst ha
  refine ⟨?_, ?_, ?_⟩
  · rw [buildAssessment_risk]
    apply riskRuleSpec_congr
    have : (buildAssessment rs.length (assessFold rs)).critical_issues =
        (assessFold rs).critical_issues.dedup := rfl
    rw [this]
    exact not_congr (List.dedup_eq_nil _).symm
  · exact decide_eq_true_iff
  · rfl

/-- The concrete platform-results list for the C1 witness: one successful
platform with 10 jobs and no failures. -/
def c1Input : List PlatformResult := [⟨"airbyte", true, some ⟨10, 0, [], []⟩, none⟩]

/-- The assessment the assessor produces for `c1Input`. -/
def c1Assessment : Assessment := buildAssessment c1Input.length (assessFold c1Input)

/-- Witness for C1: the risk-rules theorem applied to `c1Input`, the
assessor-output hypothesis discharged by evaluation. -/
theorem assess_risk_rules_witness :
    (c1Assessment.risk_level, c1Assessment.overall_health) =
        riskRuleSpec c1Assessment.failed_platforms c1Assessment.failed_jobs_count
          c1Assessment.success_rate (c1Assessment.critical_issues ≠ []) ∧
      (c1Assessment.requires_notification = true ↔
        (c1Assessment.risk_level = "HIGH" ∨ c1Assessment.risk_level = "CRITICAL" ∨
          c1Assessment.failed_jobs_count > 5)) ∧
      c1Assessment.success_rate =
        (if c1Assessment.jobs_analyzed > 0 then
          ((c1Assessment.jobs_analyzed - c1Assessment.failed_jobs_count : Int) : ℚ) /
            ((c1Assessment.jobs_analyzed : Int) : ℚ) * 100
        else 100) :=
  assess_risk_rules c1Input c1Assessment rfl
